import Mathlib

/-!
Shallow embedding of `src/app.py` (DART Benchmark Proxy).

Modelling conventions:
* Python `float` values are modelled as exact rationals (`ℚ`).  All amounts the
  program handles come from decimal numeric strings, every division is guarded,
  and `ℚ` arithmetic is exact, so in this model a computed value is always
  finite: the `NaN`/`Inf` defence at app.py lines 142-144 becomes the identity
  (see `suppressNonFinite`).  Python's acceptance of the literals `"nan"`,
  `"inf"`/`"infinity"` and of digit-group underscores by `float()` is outside
  the rational model; `pythonFloat?` parses the ordinary sign/digits/fraction/
  exponent grammar that the upstream amounts use.
* Python `None` is `Option.none`; a JSON object field read with `dict.get` is
  an `Option` field here.
* The outbound HTTP call inside `get_single_financials` (app.py lines 55-67)
  is an oracle `fetch : String → String → String → DartResp` taking the corp
  code, business year and report code; `benchmark_industry` additionally
  returns the list of `(corp_code, year, report_code)` triples it fetched, so
  that "no outbound fetch occurs" is expressible.
* The pandas aggregation (app.py lines 138-144): `pd.DataFrame(all_ratios)`
  has exactly the nine ratio columns; a column whose every entry is `None`
  has object dtype and is dropped by `mean(numeric_only=True)`, so its key is
  missing from the resulting dict; a column with at least one numeric entry is
  float64 with `None` as `NaN`, and `mean` skips `NaN`, averaging exactly the
  present entries.  `dfMeanDict` renders this as an association list.
-/

/-- One reported accounting fact as consumed from the upstream JSON:
`it.get("account_nm")` and `it.get("thstrm_amount")` (app.py lines 71-72). -/
structure LineItem where
  account_nm : Option String
  thstrm_amount : Option String
deriving DecidableEq

/-- The fixed ratio names, in the insertion order of the dict literal returned
by `compute_ratios_from_items` (app.py lines 101-111). -/
inductive RatioName where
  | current_ratio
  | debt_ratio
  | oper_margin
  | net_margin
  | roe
  | roa
  | asset_turnover
  | inventory_turnover
  | interest_coverage
deriving DecidableEq

/-- A peer's ratio dictionary: ratio name to optional value. -/
def RatioSet : Type := RatioName → Option ℚ

/-- The nine ratio names in dict order. -/
def ratioNames : List RatioName :=
  [RatioName.current_ratio, RatioName.debt_ratio, RatioName.oper_margin,
   RatioName.net_margin, RatioName.roe, RatioName.roa,
   RatioName.asset_turnover, RatioName.inventory_turnover,
   RatioName.interest_coverage]

/-- Value of a digit string read in base 10. -/
def digitsToNat (ds : List Char) : ℕ :=
  ds.foldl (fun n c => 10 * n + (c.toNat - 48)) 0

/-- Numeric value of a parsed float literal: sign, integer digits, fraction
digits, exponent sign and exponent digits, as an exact rational. -/
def pyFloatVal (neg : Bool) (intDs fracDs : List Char) (eneg : Bool)
    (expDs : List Char) : ℚ :=
  let mant : ℚ :=
    (digitsToNat intDs : ℚ) + (digitsToNat fracDs : ℚ) / ((10 : ℚ) ^ fracDs.length)
  let scaled : ℚ :=
    if eneg then mant / ((10 : ℚ) ^ digitsToNat expDs)
    else mant * ((10 : ℚ) ^ digitsToNat expDs)
  if neg then -scaled else scaled

/-- Consume an optional leading sign; `true` means negative. -/
def parseSign : List Char → Bool × List Char
  | '+' :: rest => (false, rest)
  | '-' :: rest => (true, rest)
  | s => (false, s)

/-- After mantissa digits, accept either the end of input or a well-formed
exponent part, and produce the value. -/
def parseExpTail (neg : Bool) (intDs fracDs : List Char) :
    List Char → Option ℚ
  | [] => some (pyFloatVal neg intDs fracDs false [])
  | c :: rest =>
    if c = 'e' ∨ c = 'E' then
      let se := parseSign rest
      let eDs := se.2.takeWhile Char.isDigit
      let r2 := se.2.dropWhile Char.isDigit
      if eDs.isEmpty then none
      else if r2.isEmpty then some (pyFloatVal neg intDs fracDs se.1 eDs)
      else none
    else none

/-- Python `float(s)` on an ordinary numeric literal, as an exact rational:
optional surrounding whitespace, optional sign, digits with optional decimal
point and optional exponent; anything else fails. -/
def pyFloatChars (s : List Char) : Option ℚ :=
  let t := ((s.dropWhile Char.isWhitespace).reverse.dropWhile
    Char.isWhitespace).reverse
  let st := parseSign t
  let intDs := st.2.takeWhile Char.isDigit
  let r1 := st.2.dropWhile Char.isDigit
  match r1 with
  | '.' :: r2 =>
    let fracDs := r2.takeWhile Char.isDigit
    let r3 := r2.dropWhile Char.isDigit
    if intDs.isEmpty ∧ fracDs.isEmpty then none
    else parseExpTail st.1 intDs fracDs r3
  | _ =>
    if intDs.isEmpty then none else parseExpTail st.1 intDs [] r1

/-- String version of the float parser. -/
def pythonFloat? (s : String) : Option ℚ :=
  pyFloatChars s.data

/-- Python `str(raw).replace(",", "")`: remove every comma. -/
def stripCommas (s : String) : String :=
  String.mk (s.data.filter (fun c => c ≠ ','))

/-- Handling of the matched item's raw amount (app.py lines 72-78):
`if not raw: return None` (missing or empty string is falsy), then
`float(str(raw).replace(",", ""))` with any parse failure swallowed to `None`. -/
def parseAmount : Option String → Option ℚ
  | none => none
  | some raw => if raw = "" then none else pythonFloat? (stripCommas raw)

/-- app.py lines 69-79: scan the items in order and return the parsed amount of
the FIRST item whose `account_nm` equals `name_kr`; the loop returns at the
first label match even when its amount is unusable. -/
def extract_amount : List LineItem → String → Option ℚ
  | [], _ => none
  | it :: rest, name_kr =>
    if it.account_nm = some name_kr then parseAmount it.thstrm_amount
    else extract_amount rest name_kr

/-- Null-safe division (app.py lines 93-99): `None` if `a is None or b in
(None, 0)`, otherwise `a / b`; the guarded `ZeroDivisionError` branch is
unreachable because `b = 0` was already excluded. -/
def div (a b : Option ℚ) : Option ℚ :=
  match a, b with
  | none, _ => none
  | _, none => none
  | some x, some y => if y = 0 then none else some (x / y)

/-- Python truthiness of an `Optional[float]`: `None` and `0.0` are falsy. -/
def pyTruthy : Option ℚ → Bool
  | none => false
  | some q => decide (q ≠ 0)

/-- app.py lines 81-111: extract the ten named fields and build the ratio
dict; `inventory_turnover` and `interest_coverage` short-circuit to `None`
when their denominator source is falsy, before `div` is reached. -/
def compute_ratios_from_items (items : List LineItem) : RatioSet :=
  fun r =>
    match r with
    | RatioName.current_ratio =>
        div (extract_amount items "유동자산") (extract_amount items "유동부채")
    | RatioName.debt_ratio =>
        div (extract_amount items "부채총계") (extract_amount items "자본총계")
    | RatioName.oper_margin =>
        div (extract_amount items "영업이익") (extract_amount items "매출액")
    | RatioName.net_margin =>
        div (extract_amount items "당기순이익") (extract_amount items "매출액")
    | RatioName.roe =>
        div (extract_amount items "당기순이익") (extract_amount items "자본총계")
    | RatioName.roa =>
        div (extract_amount items "당기순이익") (extract_amount items "자산총계")
    | RatioName.asset_turnover =>
        div (extract_amount items "매출액") (extract_amount items "자산총계")
    | RatioName.inventory_turnover =>
        if pyTruthy (extract_amount items "재고자산") then
          div (extract_amount items "매출액") (extract_amount items "재고자산")
        else none
    | RatioName.interest_coverage =>
        if pyTruthy (extract_amount items "이자비용") then
          div (extract_amount items "영업이익") (extract_amount items "이자비용")
        else none

/-- The upstream JSON body as consumed by the pipeline: `data.get("status")`
and `data.get("list", [])` (app.py lines 128 and 131). -/
structure DartResp where
  status : Option String
  list : Option (List LineItem)
deriving DecidableEq

/-- The request model (app.py lines 27-44); `industry_code` and `metrics` are
accepted but never read by the handler. -/
structure BenchmarkRequest where
  year : String
  report_code : String := "11011"
  peers : Option (List String) := none
  industry_code : Option String := none
  metrics : Option (List String) :=
    some ["current_ratio", "debt_ratio", "interest_coverage", "oper_margin",
          "net_margin", "roe", "roa", "asset_turnover", "inventory_turnover"]
deriving DecidableEq

/-- The response model (app.py lines 46-51), with `benchmarks` as the
association list produced by `to_dict` so that a missing key is
distinguishable from a key mapped to `None`. -/
structure BenchmarkResponse where
  source : String
  year : String
  count_peers : ℕ
  benchmarks : List (RatioName × Option ℚ)
  notes : Option String
deriving DecidableEq

/-- The two intentional error outcomes of the handler
(`HTTPException` raises at app.py lines 120-123 and 136). -/
inductive BenchError where
  | MissingPeers
  | NoUsableData
deriving DecidableEq

/-- HTTP status code attached to each error. -/
def errStatus : BenchError → ℕ
  | BenchError.MissingPeers => 400
  | BenchError.NoUsableData => 404

/-- Detail message attached to each error. -/
def errDetail : BenchError → String
  | BenchError.MissingPeers =>
      "현재 버전은 peers(동종사 corp_code 배열) 입력이 필요합니다. 추후 industry_code 매핑 추가 예정."
  | BenchError.NoUsableData => "입력한 peers에서 유효한 자료를 찾지 못했습니다."

/-- The fetch loop (app.py lines 125-133): call the upstream once per peer in
order; a response whose status is not `"000"` is skipped; otherwise the ratio
dict computed from its (possibly defaulted-empty) item list is appended. -/
def collectRatios (fetch : String → String → String → DartResp)
    (year report_code : String) : List String → List RatioSet
  | [] => []
  | corp :: rest =>
    if (fetch corp year report_code).status = some "000" then
      compute_ratios_from_items ((fetch corp year report_code).list.getD []) ::
        collectRatios fetch year report_code rest
    else collectRatios fetch year report_code rest

/-- Column of values for one ratio across the collected peers; `None` entries
do not appear (pandas stores them as `NaN` and `mean` skips them). -/
def presentValues (sets : List RatioSet) (r : RatioName) : List ℚ :=
  sets.filterMap (fun s => s r)

/-- Column mean under pandas semantics: `none` when no peer has the ratio
present (the column is then all-`None`, of object dtype, and is dropped by
`mean(numeric_only=True)`), otherwise the arithmetic mean of the present
values. -/
def colMean (sets : List RatioSet) (r : RatioName) : Option ℚ :=
  if (presentValues sets r).length = 0 then none
  else some ((presentValues sets r).sum / ((presentValues sets r).length : ℚ))

/-- Dict entry contributed by one ratio column: nothing when the column is
dropped, otherwise the pair of the ratio name and its mean. -/
def meanEntry (sets : List RatioSet) (r : RatioName) :
    Option (RatioName × Option ℚ) :=
  match colMean sets r with
  | none => none
  | some m => some (r, some m)

/-- app.py lines 138-140: `pd.DataFrame(all_ratios).mean(numeric_only=True)
.to_dict()`.  Columns whose mean exists appear with their mean; an all-absent
column is dropped, so its name is not a key of the dict. -/
def dfMeanDict (sets : List RatioSet) : List (RatioName × Option ℚ) :=
  ratioNames.filterMap (meanEntry sets)

/-- app.py lines 141-144: replace a `NaN` or infinite mean by `None`.  In the
exact-rational model every mean of a nonempty list of rationals is finite, so
this pass changes nothing; it is kept to mark where it acts in the pipeline. -/
def suppressNonFinite (d : List (RatioName × Option ℚ)) :
    List (RatioName × Option ℚ) := d

/-- Lookup in the benchmarks dict: `none` means the key is missing,
`some none` means the key is present with value `None`. -/
def dictLookup : List (RatioName × Option ℚ) → RatioName → Option (Option ℚ)
  | [], _ => none
  | (k, v) :: rest, r => if k = r then some v else dictLookup rest r

/-- The POST handler (app.py lines 117-152).  The second component of the
result is the trace of upstream fetches performed, in order: one
`(corp_code, year, report_code)` triple per call to `get_single_financials`. -/
def benchmark_industry (fetch : String → String → String → DartResp)
    (req : BenchmarkRequest) :
    Except BenchError BenchmarkResponse × List (String × String × String) :=
  match req.peers with
  | none => (Except.error BenchError.MissingPeers, [])
  | some peers =>
    if peers.isEmpty then (Except.error BenchError.MissingPeers, [])
    else
      let trace := peers.map (fun corp => (corp, req.year, req.report_code))
      let all_ratios := collectRatios fetch req.year req.report_code peers
      if all_ratios.isEmpty then (Except.error BenchError.NoUsableData, trace)
      else
        (Except.ok
          { source := "dart"
            year := req.year
            count_peers := all_ratios.length
            benchmarks := suppressNonFinite (dfMeanDict all_ratios)
            notes := some "DART fnlttSinglAcntAll 기반 동종사 평균" }, trace)

/-- Peer A of the spec's aggregation example: only `current_ratio` present,
with value 2. -/
def peerA : RatioSet :=
  fun r => if r = RatioName.current_ratio then some 2 else none

/-- Peer B of the spec's aggregation example: every ratio absent. -/
def peerB : RatioSet := fun _ => none

/-- An upstream that always answers with the "no data for this filer" status. -/
def noDataFetch : String → String → String → DartResp :=
  fun _ _ _ => DartResp.mk (some "013") none

/-- An upstream that answers success but with no `list` field at all. -/
def emptyListFetch : String → String → String → DartResp :=
  fun _ _ _ => DartResp.mk (some "000") none

/-- An upstream where the peer `"bad"` has no data and every other peer
succeeds with an empty item list. -/
def mixedFetch : String → String → String → DartResp :=
  fun corp _ _ =>
    if corp = "bad" then DartResp.mk (some "013") none
    else DartResp.mk (some "000") (some [])

/-- A request with a single peer and default report code. -/
def reqOnePeer : BenchmarkRequest :=
  { year := "2023", peers := some ["00126380"] }

/-- A request whose peers field was omitted. -/
def reqNoPeers : BenchmarkRequest := { year := "2023" }

/-- Line items with a zero inventory amount and no interest-expense item. -/
def invZeroItems : List LineItem :=
  [LineItem.mk (some "재고자산") (some "0"),
   LineItem.mk (some "매출액") (some "500")]

/-- Line items with two entries under the same label. -/
def dupItems : List LineItem :=
  [LineItem.mk (some "매출액") (some "1,000"),
   LineItem.mk (some "매출액") (some "2000")]

lemma collectRatios_eq (fetch : String → String → String → DartResp)
    (year rc : String) (ps : List String) :
    collectRatios fetch year rc ps =
      (ps.filter (fun p => decide ((fetch p year rc).status = some "000"))).map
        (fun p => compute_ratios_from_items ((fetch p year rc).list.getD [])) := by
  induction ps with
  | nil => rfl
  | cons c rest ih =>
    by_cases h : (fetch c year rc).status = some "000" <;>
      simp [collectRatios, List.filter_cons, h, ih]

lemma dictLookup_filterMap_of_not_mem
    (e : RatioName → Option (RatioName × Option ℚ))
    (he : ∀ k p, e k = some p → p.1 = k)
    (ks : List RatioName) (r : RatioName) (hr : r ∉ ks) :
    dictLookup (ks.filterMap e) r = none := by
  induction ks with
  | nil => rfl
  | cons k tl ih =>
    rw [List.filterMap_cons]
    have hkr : k ≠ r := by
      rintro rfl
      exact hr (List.mem_cons_self k tl)
    have htl : r ∉ tl := fun h => hr (List.mem_cons_of_mem k h)
    cases hek : e k with
    | none => exact ih htl
    | some p =>
      have h1 : p.1 = k := he k p hek
      obtain ⟨k1, v⟩ := p
      cases h1
      simp only [dictLookup, if_neg hkr]
      exact ih htl

lemma dictLookup_filterMap_of_mem
    (e : RatioName → Option (RatioName × Option ℚ))
    (he : ∀ k p, e k = some p → p.1 = k)
    (ks : List RatioName) (hnd : ks.Nodup) (r : RatioName) (hr : r ∈ ks) :
    dictLookup (ks.filterMap e) r = Option.map Prod.snd (e r) := by
  induction ks with
  | nil => cases hr
  | cons k tl ih =>
    rw [List.filterMap_cons]
    rcases List.mem_cons.mp hr with rfl | hrtl
    · cases hek : e r with
      | none =>
        show dictLookup (List.filterMap e tl) r = none
        exact dictLookup_filterMap_of_not_mem e he tl r (List.nodup_cons.mp hnd).1
      | some p =>
        have h1 : p.1 = r := he r p hek
        obtain ⟨k1, v⟩ := p
        cases h1
        simp [dictLookup]
    · have hkr : k ≠ r := by
        rintro rfl
        exact (List.nodup_cons.mp hnd).1 hrtl
      cases hek : e k with
      | none => exact ih (List.nodup_cons.mp hnd).2 hrtl
      | some p =>
        have h1 : p.1 = k := he k p hek
        obtain ⟨k1, v⟩ := p
        cases h1
        simp only [dictLookup, if_neg hkr]
        exact ih (List.nodup_cons.mp hnd).2 hrtl

lemma meanEntry_key (sets : List RatioSet) :
    ∀ k p, meanEntry sets k = some p → p.1 = k := by
  intro k p h
  rw [meanEntry] at h
  cases hc : colMean sets k with
  | none => rw [hc] at h; cases h
  | some m => rw [hc] at h; cases h; rfl

lemma benchmarks_lookup (sets : List RatioSet) (r : RatioName) :
    dictLookup (dfMeanDict sets) r = Option.map (fun m => some m) (colMean sets r) := by
  have hmem : r ∈ ratioNames := by cases r <;> simp [ratioNames]
  have hnd : ratioNames.Nodup := by decide
  have hmain := dictLookup_filterMap_of_mem (meanEntry sets) (meanEntry_key sets)
    ratioNames hnd r hmem
  rw [dfMeanDict, hmain, meanEntry]
  cases colMean sets r <;> rfl

/-- C2: for all inputs `a` and `b`, the null-safe division `div a b` returns
absent if `a` is absent, or `b` is absent, or `b` equals zero, and otherwise
returns `a / b`; division by zero never raises, it always yields absent. -/
theorem claim_C2 (a b : Option ℚ) :
    (a = none → div a b = none) ∧
    (b = none → div a b = none) ∧
    (b = some 0 → div a b = none) ∧
    (∀ x y : ℚ, a = some x → b = some y → y ≠ 0 → div a b = some (x / y)) := by
  refine ⟨?_, ?_, ?_, ?_⟩
  · rintro rfl; cases b <;> rfl
  · rintro rfl; cases a <;> rfl
  · rintro rfl; cases a <;> simp [div]
  · rintro x y rfl rfl hy; simp [div, hy]

/-- Witness for C2 at concrete inputs: 6 divided by 0 is absent and 6 divided
by 3 is their quotient. -/
theorem claim_C2_witness :
    div (some 6) (some 0) = none ∧ div (some 6) (some 3) = some ((6 : ℚ) / 3) :=
  ⟨(claim_C2 (some 6) (some 0)).2.2.1 rfl,
   (claim_C2 (some 6) (some 3)).2.2.2 6 3 rfl rfl (by norm_num)⟩

/-- C3: `inventory_turnover` is absent whenever the extracted inventory is
absent or zero (regardless of revenue), and `interest_coverage` is absent
whenever the extracted interest expense is absent or zero (regardless of
operating income). -/
theorem claim_C3 (items : List LineItem) :
    ((extract_amount items "재고자산" = none ∨ extract_amount items "재고자산" = some 0) →
      compute_ratios_from_items items RatioName.inventory_turnover = none) ∧
    ((extract_amount items "이자비용" = none ∨ extract_amount items "이자비용" = some 0) →
      compute_ratios_from_items items RatioName.interest_coverage = none) := by
  constructor <;> rintro (h | h) <;>
    simp [compute_ratios_from_items, pyTruthy, h]

set_option maxRecDepth 4000 in
/-- Witness for C3: a snapshot whose inventory amount is the string "0" and
which has no interest-expense item yields absent for both ratios, although its
revenue is 500. -/
theorem claim_C3_witness :
    compute_ratios_from_items invZeroItems RatioName.inventory_turnover = none ∧
    compute_ratios_from_items invZeroItems RatioName.interest_coverage = none :=
  ⟨(claim_C3 invZeroItems).1 (Or.inr (by
      simp [invZeroItems, extract_amount]
      with_unfolding_all rfl)),
   (claim_C3 invZeroItems).2 (Or.inl (by simp [invZeroItems, extract_amount]))⟩

/-- C8: extraction scans the line items in order and uses the FIRST item whose
label equals the account name, even when later duplicates exist; it returns
absent when no label matches; the matched item's raw amount is handled by
`parseAmount`: absent when missing or the empty string, otherwise the comma
stripping float parse, whose failure is swallowed into absent. -/
theorem claim_C8 :
    (∀ (items : List LineItem) (name : String),
        (∀ it ∈ items, it.account_nm ≠ some name) →
        extract_amount items name = none) ∧
    (∀ (pre : List LineItem) (it : LineItem) (post : List LineItem) (name : String),
        (∀ j ∈ pre, j.account_nm ≠ some name) → it.account_nm = some name →
        extract_amount (pre ++ it :: post) name = parseAmount it.thstrm_amount) ∧
    parseAmount none = none ∧
    (∀ raw : String, parseAmount (some raw) =
        if raw = "" then none else pythonFloat? (stripCommas raw)) := by
  refine ⟨?_, ?_, rfl, fun raw => rfl⟩
  · intro items name h
    induction items with
    | nil => rfl
    | cons it rest ih =>
      have h1 : it.account_nm ≠ some name := h it (List.mem_cons_self it rest)
      rw [extract_amount, if_neg h1]
      exact ih fun j hj => h j (List.mem_cons_of_mem it hj)
  · intro pre it post name hpre hit
    induction pre with
    | nil => rw [List.nil_append, extract_amount, if_pos hit]
    | cons j rest ih =>
      have h1 : j.account_nm ≠ some name := hpre j (List.mem_cons_self j rest)
      rw [List.cons_append, extract_amount, if_neg h1]
      exact ih fun k hk => hpre k (List.mem_cons_of_mem j hk)

set_option maxRecDepth 4000 in
/-- Witness for C8: with two items labelled 매출액, the first one (amount
"1,000") wins; after comma stripping it parses to 1000. -/
theorem claim_C8_witness : extract_amount dupItems "매출액" = some 1000 := by
  have h := claim_C8.2.1 [] (LineItem.mk (some "매출액") (some "1,000"))
    [LineItem.mk (some "매출액") (some "2000")] "매출액"
    (by intro j hj; cases hj) rfl
  exact h.trans (by with_unfolding_all rfl)

lemma isEmpty_false_of_ne_nil {α : Type} {l : List α} (h : l ≠ []) :
    l.isEmpty = false := by
  cases l with
  | nil => exact absurd rfl h
  | cons a t => rfl

/-- C5: past the peers check, if the list of collected RatioSets is empty the
request fails with `NoUsableData` (HTTP 404); a successful response never has
`count_peers = 0`. -/
theorem claim_C5 (fetch : String → String → String → DartResp)
    (req : BenchmarkRequest) :
    (∀ ps : List String, req.peers = some ps → ps ≠ [] →
        collectRatios fetch req.year req.report_code ps = [] →
        (benchmark_industry fetch req).1 = Except.error BenchError.NoUsableData) ∧
    (∀ resp : BenchmarkResponse,
        (benchmark_industry fetch req).1 = Except.ok resp →
        resp.count_peers ≠ 0) ∧
    errStatus BenchError.NoUsableData = 404 := by
  refine ⟨?_, ?_, rfl⟩
  · intro ps hps hne hcol
    simp [benchmark_industry, hps, isEmpty_false_of_ne_nil hne, hcol]
  · intro resp hok
    cases hps : req.peers with
    | none => simp [benchmark_industry, hps] at hok
    | some ps =>
      by_cases hpe : ps.isEmpty = true
      · simp [benchmark_industry, hps, hpe] at hok
      · by_cases hce :
          (collectRatios fetch req.year req.report_code ps).isEmpty = true
        · simp [benchmark_industry, hps, hpe, hce] at hok
        · simp [benchmark_industry, hps, hpe, hce] at hok
          rw [← hok]
          intro hlen
          rw [List.length_eq_zero] at hlen
          rw [hlen] at hce
          exact hce rfl

/-- Witness for C5: an upstream that always answers status 013 makes the
single-peer request fail with `NoUsableData`. -/
theorem claim_C5_witness :
    (benchmark_industry noDataFetch reqOnePeer).1 =
      Except.error BenchError.NoUsableData :=
  (claim_C5 noDataFetch reqOnePeer).1 ["00126380"] rfl
    (List.cons_ne_nil "00126380" []) rfl

/-- C6: a request whose peers list is omitted or empty is rejected with
`MissingPeers` (HTTP 400, with an explanatory message) and no outbound fetch
occurs (the fetch trace is empty). -/
theorem claim_C6 (fetch : String → String → String → DartResp)
    (req : BenchmarkRequest) (h : req.peers = none ∨ req.peers = some []) :
    benchmark_industry fetch req = (Except.error BenchError.MissingPeers, []) ∧
    errStatus BenchError.MissingPeers = 400 ∧
    errDetail BenchError.MissingPeers ≠ "" := by
  refine ⟨?_, rfl, by decide⟩
  rcases h with h | h <;> simp [benchmark_industry, h]

/-- Witness for C6: the request with the peers field omitted is rejected
before any fetch. -/
theorem claim_C6_witness :
    benchmark_industry noDataFetch reqNoPeers =
      (Except.error BenchError.MissingPeers, []) ∧
    errStatus BenchError.MissingPeers = 400 ∧
    errDetail BenchError.MissingPeers ≠ "" :=
  claim_C6 noDataFetch reqNoPeers (Or.inl rfl)

/-- C7: a peer whose response status is not the success code "000" is skipped
and the remaining peers are still processed (removing it from the peer list
does not change the collected ratio sets); moreover ratio dicts are computed
from exactly the peers whose status is "000", so a skipped peer's line items
are never extracted. -/
theorem claim_C7 (fetch : String → String → String → DartResp)
    (year rc : String) (pre post : List String) (c : String)
    (hbad : (fetch c year rc).status ≠ some "000") :
    collectRatios fetch year rc (pre ++ c :: post) =
      collectRatios fetch year rc (pre ++ post) ∧
    ∀ ps : List String, collectRatios fetch year rc ps =
      (ps.filter (fun p => decide ((fetch p year rc).status = some "000"))).map
        (fun p => compute_ratios_from_items ((fetch p year rc).list.getD [])) := by
  refine ⟨?_, collectRatios_eq fetch year rc⟩
  induction pre with
  | nil => simp [collectRatios, hbad]
  | cons d rest ih =>
    by_cases h : (fetch d year rc).status = some "000" <;>
      simp [collectRatios, h, ih]

/-- Witness for C7: with one no-data peer between two successful peers, the
collection equals the one for the two successful peers alone. -/
theorem claim_C7_witness :
    collectRatios mixedFetch "2023" "11011" (["g1"] ++ "bad" :: ["g2"]) =
      collectRatios mixedFetch "2023" "11011" (["g1"] ++ ["g2"]) ∧
    ∀ ps : List String, collectRatios mixedFetch "2023" "11011" ps =
      (ps.filter
        (fun p => decide ((mixedFetch p "2023" "11011").status = some "000"))).map
        (fun p =>
          compute_ratios_from_items ((mixedFetch p "2023" "11011").list.getD [])) :=
  claim_C7 mixedFetch "2023" "11011" ["g1"] ["g2"] "bad" (by decide)

lemma ok_benchmarks_shape (fetch : String → String → String → DartResp)
    (req : BenchmarkRequest) (resp : BenchmarkResponse)
    (hok : (benchmark_industry fetch req).1 = Except.ok resp) :
    ∃ sets : List RatioSet,
      resp.benchmarks = suppressNonFinite (dfMeanDict sets) := by
  cases hps : req.peers with
  | none => simp [benchmark_industry, hps] at hok
  | some ps =>
    by_cases hpe : ps.isEmpty = true
    · simp [benchmark_industry, hps, hpe] at hok
    · by_cases hce :
        (collectRatios fetch req.year req.report_code ps).isEmpty = true
      · simp [benchmark_industry, hps, hpe, hce] at hok
      · simp [benchmark_industry, hps, hpe, hce] at hok
        exact ⟨collectRatios fetch req.year req.report_code ps,
          by rw [← hok]⟩

/-- Counterexample to C9 as stated: a reachable successful run (one peer,
success status, no line items) returns an EMPTY benchmarks mapping, so the
fixed-set ratio `inventory_turnover` (like every other ratio name) is a
missing key of the returned result — the full fixed ratio set is not always
returned. -/
theorem claim_C9_counterexample :
    (benchmark_industry emptyListFetch reqOnePeer).1 =
      Except.ok
        { source := "dart", year := "2023", count_peers := 1,
          benchmarks := [],
          notes := some "DART fnlttSinglAcntAll 기반 동종사 평균" } ∧
    RatioName.inventory_turnover ∈ ratioNames ∧
    dictLookup ([] : List (RatioName × Option ℚ))
      RatioName.inventory_turnover = none :=
  ⟨rfl, by decide, rfl⟩

/-- C9 (amended): two requests that differ only in `industry_code` and/or
`metrics` produce identical results against the same upstream: both fields
are accepted but have no effect on the outcome.  The computed ratio set is
always the fixed nine-name set — every key of a returned benchmarks mapping
lies in it — but the mapping returned is not always the FULL fixed set: a
ratio with zero present values among the collected peers is omitted (the
same correction as C1). -/
theorem claim_C9 (fetch : String → String → String → DartResp)
    (req1 req2 : BenchmarkRequest) (hy : req1.year = req2.year)
    (hrc : req1.report_code = req2.report_code) (hp : req1.peers = req2.peers) :
    benchmark_industry fetch req1 = benchmark_industry fetch req2 ∧
    (∀ resp : BenchmarkResponse,
      (benchmark_industry fetch req1).1 = Except.ok resp →
      ∀ kv ∈ resp.benchmarks, kv.1 ∈ ratioNames) := by
  constructor
  · obtain ⟨y1, rc1, p1, i1, m1⟩ := req1
    obtain ⟨y2, rc2, p2, i2, m2⟩ := req2
    have h1 : y1 = y2 := hy
    have h2 : rc1 = rc2 := hrc
    have h3 : p1 = p2 := hp
    subst h1; subst h2; subst h3
    rfl
  · intro resp hok kv hkv
    obtain ⟨sets, hb⟩ := ok_benchmarks_shape fetch req1 resp hok
    rw [hb, suppressNonFinite, dfMeanDict] at hkv
    obtain ⟨a, ha, hea⟩ := List.mem_filterMap.mp hkv
    rw [meanEntry_key sets a kv hea]
    exact ha

/-- Witness for C9: a request with a metrics list and no industry code gives
the same result as one with no metrics list and an industry code, and the
keys of that result's benchmarks all lie in the fixed ratio set. -/
theorem claim_C9_witness :
    benchmark_industry emptyListFetch
      { year := "2023", peers := some ["00126380"], industry_code := none,
        metrics := some ["roe"] } =
    benchmark_industry emptyListFetch
      { year := "2023", peers := some ["00126380"],
        industry_code := some "C26", metrics := none } ∧
    (∀ resp : BenchmarkResponse,
      (benchmark_industry emptyListFetch
        { year := "2023", peers := some ["00126380"], industry_code := none,
          metrics := some ["roe"] }).1 = Except.ok resp →
      ∀ kv ∈ resp.benchmarks, kv.1 ∈ ratioNames) :=
  claim_C9 emptyListFetch
    { year := "2023", peers := some ["00126380"], industry_code := none,
      metrics := some ["roe"] }
    { year := "2023", peers := some ["00126380"], industry_code := some "C26",
      metrics := none } rfl rfl rfl

/-- C1 (amended): for every list of RatioSets, the returned benchmarks dict
has a key for a ratio name exactly when at least one peer has that ratio
present: an all-absent ratio's key is omitted from the dict (pandas drops the
object-dtype column under `numeric_only=True`), and a ratio with at least one
present value is mapped to the finite arithmetic mean of exactly its present
values; in the exact-rational model no non-finite mean can arise, so the
NaN/Inf suppression pass leaves the dict unchanged. -/
theorem claim_C1 (sets : List RatioSet) (hne : sets ≠ []) (r : RatioName) :
    (presentValues sets r = [] →
      dictLookup (suppressNonFinite (dfMeanDict sets)) r = none) ∧
    (presentValues sets r ≠ [] →
      dictLookup (suppressNonFinite (dfMeanDict sets)) r =
        some (some ((presentValues sets r).sum /
          ((presentValues sets r).length : ℚ)))) := by
  constructor
  · intro h
    rw [suppressNonFinite, benchmarks_lookup, colMean, if_pos]
    · rfl
    · rw [h]; rfl
  · intro h
    have hlen : (presentValues sets r).length ≠ 0 := by
      intro h0
      exact h (List.length_eq_zero.mp h0)
    rw [suppressNonFinite, benchmarks_lookup, colMean, if_neg hlen]
    rfl

/-- Counterexample to C1 as stated: a successful single-peer aggregation in
which every ratio is absent (reachable per C10 from a success response with no
line items) yields a benchmarks dict in which `current_ratio` is a MISSING
key, not a key mapped to absent. -/
theorem claim_C1_counterexample :
    ([compute_ratios_from_items []] : List RatioSet) ≠ [] ∧
    dictLookup (suppressNonFinite (dfMeanDict [compute_ratios_from_items []]))
      RatioName.current_ratio = none :=
  ⟨List.cons_ne_nil _ _, rfl⟩

/-- Witness for C1: over the peers A and B, `roe` (present for no peer) has no
key, while `current_ratio` (present for peer A only) is mapped to the mean of
its present values. -/
theorem claim_C1_witness :
    dictLookup (suppressNonFinite (dfMeanDict [peerA, peerB]))
      RatioName.roe = none ∧
    dictLookup (suppressNonFinite (dfMeanDict [peerA, peerB]))
      RatioName.current_ratio =
      some (some ((presentValues [peerA, peerB] RatioName.current_ratio).sum /
        ((presentValues [peerA, peerB] RatioName.current_ratio).length : ℚ))) :=
  ⟨(claim_C1 [peerA, peerB] (List.cons_ne_nil _ _) RatioName.roe).1 rfl,
   (claim_C1 [peerA, peerB] (List.cons_ne_nil _ _) RatioName.current_ratio).2
     (by simp [presentValues, peerA])⟩

/-- C4: the mean for a ratio is taken over exactly the peers where it is
present: inserting a peer with that ratio absent changes neither the column of
present values nor the column mean; and on the spec's example (peer A with
current ratio 2, peer B with it absent) the aggregated current ratio is 2. -/
theorem claim_C4 (pre post : List RatioSet) (s : RatioSet) (r : RatioName)
    (habs : s r = none) :
    presentValues (pre ++ s :: post) r = presentValues (pre ++ post) r ∧
    colMean (pre ++ s :: post) r = colMean (pre ++ post) r ∧
    dictLookup (suppressNonFinite (dfMeanDict [peerA, peerB]))
      RatioName.current_ratio = some (some 2) := by
  have hpv : presentValues (pre ++ s :: post) r = presentValues (pre ++ post) r := by
    simp [presentValues, List.filterMap_append, List.filterMap_cons, habs]
  refine ⟨hpv, by rw [colMean, colMean, hpv], ?_⟩
  with_unfolding_all rfl

/-- Witness for C4: the spec's two-peer example, with peer B inserted after
peer A. -/
theorem claim_C4_witness :
    presentValues [peerA, peerB] RatioName.current_ratio =
      presentValues [peerA] RatioName.current_ratio ∧
    colMean [peerA, peerB] RatioName.current_ratio =
      colMean [peerA] RatioName.current_ratio ∧
    dictLookup (suppressNonFinite (dfMeanDict [peerA, peerB]))
      RatioName.current_ratio = some (some 2) :=
  claim_C4 [peerA] [] peerB RatioName.current_ratio rfl

/-- C10: a peer whose response has success status "000" counts toward
`count_peers` and averts the `NoUsableData` rejection even when its snapshot
yields no extractable values (missing or empty line-item list): its all-absent
RatioSet is still collected, so usable data means success status only. -/
theorem claim_C10 (fetch : String → String → String → DartResp)
    (req : BenchmarkRequest) (ps : List String) (c : String)
    (hps : req.peers = some ps) (hmem : c ∈ ps)
    (hok : (fetch c req.year req.report_code).status = some "000")
    (hnl : (fetch c req.year req.report_code).list.getD [] = []) :
    (∀ r : RatioName,
      compute_ratios_from_items
        ((fetch c req.year req.report_code).list.getD []) r = none) ∧
    ∃ resp : BenchmarkResponse,
      (benchmark_industry fetch req).1 = Except.ok resp ∧
      resp.count_peers =
        (ps.filter
          (fun p => decide ((fetch p req.year req.report_code).status = some "000"))).length ∧
      resp.count_peers ≠ 0 := by
  constructor
  · rw [hnl]
    intro r
    cases r <;> rfl
  · have hpse : ps.isEmpty = false :=
      isEmpty_false_of_ne_nil (List.ne_nil_of_mem hmem)
    have hfil : c ∈ ps.filter
        (fun p => decide ((fetch p req.year req.report_code).status = some "000")) :=
      List.mem_filter.mpr ⟨hmem, by simp [hok]⟩
    have hflen : (ps.filter
        (fun p => decide ((fetch p req.year req.report_code).status = some "000"))).length ≠ 0 := by
      intro h0
      rw [List.length_eq_zero] at h0
      rw [h0] at hfil
      cases hfil
    have hclen : (collectRatios fetch req.year req.report_code ps).length =
        (ps.filter
          (fun p => decide ((fetch p req.year req.report_code).status = some "000"))).length := by
      rw [collectRatios_eq]
      exact List.length_map _ _
    have hce : (collectRatios fetch req.year req.report_code ps).isEmpty = false := by
      apply isEmpty_false_of_ne_nil
      intro h0
      apply hflen
      rw [← hclen, h0]
      rfl
    refine ⟨{ source := "dart", year := req.year,
              count_peers := (collectRatios fetch req.year req.report_code ps).length,
              benchmarks := suppressNonFinite
                (dfMeanDict (collectRatios fetch req.year req.report_code ps)),
              notes := some "DART fnlttSinglAcntAll 기반 동종사 평균" }, ?_, ?_, ?_⟩
    · simp [benchmark_industry, hps, hpse, hce]
    · exact hclen
    · rw [hclen]; exact hflen

/-- Witness for C10: a single peer answering success status with no list field
yields a successful response with one counted peer and all ratios absent. -/
theorem claim_C10_witness :
    (∀ r : RatioName,
      compute_ratios_from_items
        ((emptyListFetch "00126380" "2023" "11011").list.getD []) r = none) ∧
    ∃ resp : BenchmarkResponse,
      (benchmark_industry emptyListFetch reqOnePeer).1 = Except.ok resp ∧
      resp.count_peers =
        (["00126380"].filter
          (fun p => decide ((emptyListFetch p "2023" "11011").status = some "000"))).length ∧
      resp.count_peers ≠ 0 :=
  claim_C10 emptyListFetch reqOnePeer ["00126380"] "00126380" rfl
    (List.mem_cons_self "00126380" []) rfl rfl
